import Mathlib

/-!
Shallow embedding of the YouTube data-collection pipeline
(`scripts/yt_collect.py`) and of the claims made about it.

Python strings are sequences of Unicode code points; we model them as
`List Char` (called `Str` below).  Python's `str.lower()` is modelled by
mapping `Char.toLower` over the code points (ASCII case folding; every
substring pattern appearing in the source is ASCII, so this is faithful
for the properties considered here).

Every remote call goes through `safe_execute`, which turns the outcome of
the transport (`ExecOutcome`) into one of three adapter results
(`ApiRes`): a decoded payload, a soft failure (`None` in the source), or
process termination (`sys.exit(1)` on a credential error).  Components
that can terminate the process are modelled in `Except ExitKind`, where
`ExitKind.fatalAuth` is the `sys.exit(1)` path and `ExitKind.crash` is an
uncaught Python exception (e.g. the `IndexError` raised by
`response['items'][0]` on an empty item list).
-/

namespace YT

/-- A Python string: a sequence of Unicode code points. -/
abbrev Str := List Char

/-- Code points of a Lean string literal. -/
def str (s : String) : Str := s.data

/-- Python `str.lower()` (ASCII case folding, see module comment). -/
def lowerStr (s : Str) : Str := s.map Char.toLower

/-- Python `needle in hay` substring test. -/
def strContains (hay needle : Str) : Bool := decide (needle <:+: hay)

/-- Python truthiness of an optional string: `None` and `""` are falsy. -/
def tokenFalsy : Option Str → Bool
  | none => true
  | some t => t.isEmpty

/-- Outcome of one remote transport call, before `safe_execute` decodes it:
a successful decoded payload, an `HttpError` carrying the error content
text, or any other Python exception. -/
inductive ExecOutcome (α : Type) where
  | success (payload : α)
  | httpError (content : Str)
  | pyError
  deriving DecidableEq

/-- Result of `safe_execute`: payload, soft failure (`None` in the source),
or process termination on a credential error. -/
inductive ApiRes (α : Type) where
  | fatal
  | soft
  | ok (a : α)
  deriving DecidableEq

/-- `safe_execute` (yt_collect.py lines 22-46): decodes an `HttpError` by
inspecting its content for literal substrings.  `'API key expired'` in the
content, or `'api key'` in the lower-cased content, causes `sys.exit(1)`;
`'commentsDisabled'` and every other error return `None` (soft). -/
def safe_execute {α : Type} : ExecOutcome α → ApiRes α
  | .success p => .ok p
  | .httpError content =>
    if strContains content (str "API key expired")
        || strContains (lowerStr content) (str "api key") then
      .fatal
    else if strContains content (str "commentsDisabled") then
      .soft
    else
      .soft
  | .pyError => .soft

/-- Why the process died: `sys.exit(1)` on a credential error, or an
uncaught Python exception. -/
inductive ExitKind where
  | fatalAuth
  | crash
  deriving DecidableEq

/-- Content-type classification of a video title
(yt_collect.py lines 148-159), translated from the source `if/elif`
cascade over the lower-cased title. -/
def content_type_of (title : Str) : Str :=
  let tl := lowerStr title
  if strContains tl (str "official video") || strContains tl (str "music video") then
    str "music_video"
  else if strContains tl (str "live") || strContains tl (str "konzert") then
    str "live"
  else if strContains tl (str "acoustic") || strContains tl (str "akustik") then
    str "acoustic"
  else if strContains tl (str "lyric") || strContains tl (str "lyrics") then
    str "lyric_video"
  else if strContains tl (str "vlog") || strContains tl (str "behind") then
    str "vlog"
  else
    str "other"

/-- Collaboration detection (yt_collect.py lines 161-164).  Note that the
source checks `'&' in title` against the raw title while every other
pattern is checked against the lower-cased title. -/
def has_collab_of (title : Str) : Bool :=
  let tl := lowerStr title
  strContains tl (str "feat") || strContains tl (str "ft.")
    || strContains tl (str "featuring") || strContains tl (str "mit")
    || strContains title (str "&") || strContains tl (str "x")

/-- The spec's rule table for `content_type`: pattern lists paired with
the label assigned when any pattern occurs in the lower-cased title,
in priority order. -/
def contentRules : List (List Str × Str) :=
  [([str "official video", str "music video"], str "music_video"),
   ([str "live", str "konzert"], str "live"),
   ([str "acoustic", str "akustik"], str "acoustic"),
   ([str "lyric", str "lyrics"], str "lyric_video"),
   ([str "vlog", str "behind"], str "vlog")]

/-- First matching rule wins; no rule matches gives `"other"`. -/
def firstRule (tl : Str) : List (List Str × Str) → Str
  | [] => str "other"
  | r :: rest => if r.1.any (fun p => strContains tl p) then r.2 else firstRule tl rest

/-- `content_type` as the claim words it: the first matching rule of the
priority-ordered table, applied to the lower-cased title. -/
def contentTypeSpec (title : Str) : Str :=
  firstRule (lowerStr title) contentRules

/-- The claim's trigger list for `has_collab`, all checked against the
lower-cased title. -/
def collabTriggers : List Str :=
  [str "feat", str "ft.", str "featuring", str "mit", str "&", str "x"]

/-- `has_collab` as the claim words it. -/
def hasCollabSpec (title : Str) : Bool :=
  collabTriggers.any (fun p => strContains (lowerStr title) p)

/-! ## Channel Resolver (`get_channel_info`, lines 59-79) -/

/-- One element of `response['items']` for a `channels.list`
(statistics+snippet) call: the fields the source reads.  Optional fields
are the ones accessed with `.get(...)` and a default. -/
structure ChannelItem where
  title : Str
  subscriberCount : Option Nat
  viewCount : Option Nat
  videoCount : Option Nat
  country : Option Str
  customUrl : Option Str
  deriving DecidableEq

/-- The Channel Record dictionary built at lines 71-79. -/
structure ChannelRecord where
  channel_id : Str
  channel_name : Str
  subscriber_count : Nat
  total_view_count : Nat
  total_video_count : Nat
  country : Str
  custom_url : Str
  deriving DecidableEq

def mkChannelRecord (channel_id : Str) (c : ChannelItem) : ChannelRecord :=
  { channel_id := channel_id
    channel_name := c.title
    subscriber_count := c.subscriberCount.getD 0
    total_view_count := c.viewCount.getD 0
    total_video_count := c.videoCount.getD 0
    country := c.country.getD []
    custom_url := c.customUrl.getD [] }

/-- `get_channel_info`.  The response payload models the `'items'` key:
`none` when the key is absent (which also covers a falsy empty-dict
response, since a dict containing `'items'` is non-empty and truthy).
`response['items'][0]` on a present-but-empty list raises `IndexError`
(modelled as `ExitKind.crash`). -/
def get_channel_info (channel_id : Str)
    (resp : ExecOutcome (Option (List ChannelItem))) :
    Except ExitKind (Option ChannelRecord) :=
  match safe_execute resp with
  | .fatal => .error .fatalAuth
  | .soft => .ok none
  | .ok none => .ok none
  | .ok (some []) => .error .crash
  | .ok (some (c :: _)) => .ok (some (mkChannelRecord channel_id c))

/-! ## Video Page Walker (`get_channel_videos`, lines 82-123) -/

/-- One `playlistItems.list` response: the video ids of
`item['contentDetails']['videoId']` for each element of `'items'`, plus
the optional `nextPageToken`.  The payload is `none` when the response
lacks the `'items'` key (or is falsy). -/
structure PlaylistPage where
  videoIds : List Str
  nextPageToken : Option Str
  deriving DecidableEq

/-- The pagination loop of `get_channel_videos` (lines 99-122), walking a
list of successive transport outcomes.  The `while len(videos) <
max_results` guard is checked before each fetch; a page's ids are all
appended before the guard is re-checked; an empty or falsy
`nextPageToken` breaks the loop.  An exhausted outcome list returns the
accumulator (a real trace always supplies a response per request). -/
def walkPages (cap : Nat) :
    List (ExecOutcome (Option PlaylistPage)) → List Str →
    Except ExitKind (List Str)
  | [], acc => .ok acc
  | p :: rest, acc =>
    if cap ≤ acc.length then .ok acc
    else
      match safe_execute p with
      | .fatal => .error .fatalAuth
      | .soft => .ok acc
      | .ok none => .ok acc
      | .ok (some pg) =>
        if tokenFalsy pg.nextPageToken then .ok (acc ++ pg.videoIds)
        else walkPages cap rest (acc ++ pg.videoIds)

/-- The per-page request size at lines 102-107 is
`min(100, max_results - len(videos))`; a response honours the request
when it carries at most that many items.  `pagesHonest` says every page
actually consumed by the walk honours its request. -/
def pagesHonest (cap : Nat) :
    List (ExecOutcome (Option PlaylistPage)) → Nat → Bool
  | [], _ => true
  | p :: rest, cnt =>
    if cap ≤ cnt then true
    else
      match safe_execute p with
      | .ok (some pg) =>
        decide (pg.videoIds.length ≤ min 100 (cap - cnt)) &&
          (tokenFalsy pg.nextPageToken
            || pagesHonest cap rest (cnt + pg.videoIds.length))
      | _ => true

/-- `get_channel_videos`: resolve the uploads playlist from the channel's
`contentDetails` (lines 86-97), then paginate.  The lookup payload models
the `'items'` key as a list of uploads-playlist ids; a soft or
items-missing lookup returns the empty list, an empty `'items'` list
raises `IndexError` at line 97. -/
def get_channel_videos (uploadsResp : ExecOutcome (Option (List Str)))
    (pages : List (ExecOutcome (Option PlaylistPage)))
    (max_results : Nat) : Except ExitKind (List Str) :=
  match safe_execute uploadsResp with
  | .fatal => .error .fatalAuth
  | .soft => .ok []
  | .ok none => .ok []
  | .ok (some []) => .error .crash
  | .ok (some (_ :: _)) => walkPages max_results pages []

/-! ## Video Detail Fetcher (`get_video_details`, lines 126-186) -/

/-- One element of a `videos.list` response: the fields the source reads.
Fields accessed with `.get(...)` are optional. -/
structure VideoItem where
  id : Str
  title : Str
  channelId : Str
  channelTitle : Str
  description : Option Str
  publishedAt : Str
  duration : Str
  viewCount : Option Nat
  likeCount : Option Nat
  commentCount : Option Nat
  tags : Option (List Str)
  categoryId : Option Str
  thumbnailUrl : Str
  deriving DecidableEq

/-- The Video Record dictionary built at lines 166-184. -/
structure VideoRecord where
  video_id : Str
  channel_id : Str
  channel_name : Str
  title : Str
  title_length : Nat
  description : Str
  published_at : Str
  duration : Str
  view_count : Nat
  like_count : Nat
  comment_count : Nat
  tags : Str
  tag_count : Nat
  category_id : Str
  thumbnail_url : Str
  content_type : Str
  has_collab : Bool
  deriving DecidableEq

def mkVideoRecord (v : VideoItem) : VideoRecord :=
  { video_id := v.id
    channel_id := v.channelId
    channel_name := v.channelTitle
    title := v.title
    title_length := v.title.length
    description := v.description.getD []
    published_at := v.publishedAt
    duration := v.duration
    view_count := v.viewCount.getD 0
    like_count := v.likeCount.getD 0
    comment_count := v.commentCount.getD 0
    tags := List.intercalate (str "|") (v.tags.getD [])
    tag_count := (v.tags.getD []).length
    category_id := v.categoryId.getD []
    thumbnail_url := v.thumbnailUrl
    content_type := content_type_of v.title
    has_collab := has_collab_of v.title }

/-- `get_video_details`: `for i in range(0, len(video_ids), 50)` issues
one `videos.list` call per 50-id slice; a soft or items-missing response
skips the batch (`continue`); items of successful batches are appended in
response order.  `resps` is the trace of transport outcomes, one per
batch call in order; the payload models the `'items'` key.  An exhausted
trace returns the accumulator (a real trace supplies one outcome per
batch). -/
def get_video_details :
    List (ExecOutcome (Option (List VideoItem))) → List Str →
    List VideoRecord → Except ExitKind (List VideoRecord)
  | _, [], acc => .ok acc
  | [], _ :: _, acc => .ok acc
  | r :: rs, ids@(_ :: _), acc =>
    match safe_execute r with
    | .fatal => .error .fatalAuth
    | .soft => get_video_details rs (ids.drop 50) acc
    | .ok none => get_video_details rs (ids.drop 50) acc
    | .ok (some items) =>
      get_video_details rs (ids.drop 50) (acc ++ items.map mkVideoRecord)

/-- The consecutive 50-id slices `video_ids[i:i+50]` the fetcher requests. -/
def batchesOf : List Str → List (List Str)
  | [] => []
  | i :: is => ((i :: is).take 50) :: batchesOf ((i :: is).drop 50)
  termination_by ids => ids.length
  decreasing_by simp [List.length_drop]; omega

/-! ## Comment Page Walker (`get_video_comments`, lines 189-251) -/

/-- One element of a `commentThreads.list` response `'items'`: the fields
read from `item['snippet']`. -/
structure CommentThread where
  commentId : Str
  authorDisplayName : Str
  textDisplay : Str
  likeCount : Nat
  totalReplyCount : Nat
  publishedAt : Str
  updatedAt : Option Str
  deriving DecidableEq

/-- One `commentThreads.list` response; `items?` is `none` when the
`'items'` key is absent. -/
structure CommentPage where
  items? : Option (List CommentThread)
  nextPageToken : Option Str
  deriving DecidableEq

/-- The comment dictionary built at lines 227-238. -/
structure CommentRecord where
  comment_id : Str
  video_id : Str
  author : Str
  text : Str
  like_count : Nat
  reply_count : Nat
  published_at : Str
  updated_at : Str
  comment_length : Nat
  has_emoji : Bool
  deriving DecidableEq

def mkCommentRecord (video_id : Str) (t : CommentThread) : CommentRecord :=
  { comment_id := t.commentId
    video_id := video_id
    author := t.authorDisplayName
    text := t.textDisplay
    like_count := t.likeCount
    reply_count := t.totalReplyCount
    published_at := t.publishedAt
    updated_at := t.updatedAt.getD t.publishedAt
    comment_length := t.textDisplay.length
    has_emoji := t.textDisplay.any (fun c => 127 < c.toNat) }

/-- The pagination loop of `get_video_comments` (lines 196-248).  A soft
transport outcome (`safe_execute` returned `None`) breaks the loop with
the accumulated records — `sys.exit(1)` is a `SystemExit` and is NOT
caught by the `except Exception` handler, so the fatal path still
terminates the process.  A response lacking `'items'` breaks; a falsy
`nextPageToken` breaks after appending the page. -/
def walkComments (video_id : Str) (cap : Nat) :
    List (ExecOutcome CommentPage) → List CommentRecord →
    Except ExitKind (List CommentRecord)
  | [], acc => .ok acc
  | p :: rest, acc =>
    if cap ≤ acc.length then .ok acc
    else
      match safe_execute p with
      | .fatal => .error .fatalAuth
      | .soft => .ok acc
      | .ok pg =>
        match pg.items? with
        | none => .ok acc
        | some items =>
          let acc' := acc ++ items.map (mkCommentRecord video_id)
          if tokenFalsy pg.nextPageToken then .ok acc'
          else walkComments video_id cap rest acc'

/-- `get_video_comments`, starting from an empty accumulator. -/
def get_video_comments (video_id : Str) (cap : Nat)
    (pages : List (ExecOutcome CommentPage)) :
    Except ExitKind (List CommentRecord) :=
  walkComments video_id cap pages []

/-! ## Tabular Writer (`save_to_csv`, lines 254-267) -/

/-- A record as `csv.DictWriter` sees it: field names paired with
already-rendered values, in insertion order. -/
abbrev Row := List (Str × Str)

/-- A written CSV file: the header row and the data rows. -/
structure CsvFile where
  header : List Str
  rows : List (List Str)
  deriving DecidableEq

/-- `save_to_csv`: with data, write a header from the first record's keys
and one row per record in order (`DictWriter` renders each row by looking
up every field name); with an empty list, write nothing and warn.  The
second component records whether the warning branch ran. -/
def save_to_csv (data : List Row) : Option CsvFile × Bool :=
  match data with
  | [] => (none, true)
  | first :: _ =>
    let keys := first.map Prod.fst
    (some { header := keys
            rows := data.map (fun r => keys.map (fun k => ((r.lookup k).getD []))) },
     false)

/-! ## Collection Orchestrator (`main`, lines 270-330) -/

/-- Decimal rendering of a count for a CSV cell. -/
def natStr (n : Nat) : Str := (Nat.repr n).data

/-- Python `str(bool)` rendering. -/
def boolStr : Bool → Str
  | true => str "True"
  | false => str "False"

/-- The `channels.csv` row of one Channel Record, fields in the
dict-literal order of lines 71-79. -/
def channelRow (c : ChannelRecord) : Row :=
  [(str "channel_id", c.channel_id),
   (str "channel_name", c.channel_name),
   (str "subscriber_count", natStr c.subscriber_count),
   (str "total_view_count", natStr c.total_view_count),
   (str "total_video_count", natStr c.total_video_count),
   (str "country", c.country),
   (str "custom_url", c.custom_url)]

/-- The `videos.csv` row of one Video Record, fields in the dict-literal
order of lines 166-184. -/
def videoRow (v : VideoRecord) : Row :=
  [(str "video_id", v.video_id),
   (str "channel_id", v.channel_id),
   (str "channel_name", v.channel_name),
   (str "title", v.title),
   (str "title_length", natStr v.title_length),
   (str "description", v.description),
   (str "published_at", v.published_at),
   (str "duration", v.duration),
   (str "view_count", natStr v.view_count),
   (str "like_count", natStr v.like_count),
   (str "comment_count", natStr v.comment_count),
   (str "tags", v.tags),
   (str "tag_count", natStr v.tag_count),
   (str "category_id", v.category_id),
   (str "thumbnail_url", v.thumbnail_url),
   (str "content_type", v.content_type),
   (str "has_collab", boolStr v.has_collab)]

/-- The `comments.csv` row of one Comment Record, fields in the
dict-literal order of lines 227-238. -/
def commentRow (c : CommentRecord) : Row :=
  [(str "comment_id", c.comment_id),
   (str "video_id", c.video_id),
   (str "author", c.author),
   (str "text", c.text),
   (str "like_count", natStr c.like_count),
   (str "reply_count", natStr c.reply_count),
   (str "published_at", c.published_at),
   (str "updated_at", c.updated_at),
   (str "comment_length", natStr c.comment_length),
   (str "has_emoji", boolStr c.has_emoji)]

/-- The three append-only accumulator sequences owned by `main`
(`all_channels`, `all_videos`, `all_comments`). -/
structure Accum where
  channels : List ChannelRecord
  videos : List VideoRecord
  comments : List CommentRecord
  deriving DecidableEq

def initAccum : Accum := { channels := [], videos := [], comments := [] }

/-- Everything the remote API answers for one configured channel during a
run: the `channels.list` statistics call, the uploads-playlist lookup,
the playlist pages, the trace of `videos.list` batch outcomes, and the
comment pages of each video id. -/
structure ChannelEnv where
  infoResp : ExecOutcome (Option (List ChannelItem))
  uploadsResp : ExecOutcome (Option (List Str))
  pages : List (ExecOutcome (Option PlaylistPage))
  detailBatches : List (ExecOutcome (Option (List VideoItem)))
  commentPages : Str → List (ExecOutcome CommentPage)

/-- The per-video comment loop of `main` (lines 304-307): comments are
fetched for every id the Video Page Walker returned, whether or not a
Video Record exists for it.  A fatal exit keeps the comments of the
videos already processed. -/
def fetchCommentsLoop (env : ChannelEnv) :
    List Str → Accum → Except (ExitKind × Accum) Accum
  | [], st => .ok st
  | v :: rest, st =>
    match get_video_comments v 500 (env.commentPages v) with
    | .error k => .error (k, st)
    | .ok cs =>
      fetchCommentsLoop env rest { st with comments := st.comments ++ cs }

/-- The rest of one channel-loop iteration after the channel-statistics
step: video list (`max_results=100`), detail fetch, per-video comment
loop.  `st1` is the accumulated state after the conditional
`all_channels.append`. -/
def afterInfo (env : ChannelEnv) (st1 : Accum) :
    Except (ExitKind × Accum) Accum :=
  match get_channel_videos env.uploadsResp env.pages 100 with
  | .error k => .error (k, st1)
  | .ok video_ids =>
    match get_video_details env.detailBatches video_ids [] with
    | .error k => .error (k, st1)
    | .ok videos =>
      fetchCommentsLoop env video_ids { st1 with videos := st1.videos ++ videos }

/-- One iteration of the channel loop of `main` (lines 279-310):
channel statistics (appended only when truthy, i.e. not `None`), then
the remaining stages (`afterInfo`).  An error carries the accumulated
state at the moment the process died; a stage's local partial data
(e.g. `video_data` inside a fatally-interrupted `get_video_details`) is
lost with the stage, exactly as the Python locals are. -/
def runChannel (channel_id : Str) (env : ChannelEnv) (st : Accum) :
    Except (ExitKind × Accum) Accum :=
  match get_channel_info channel_id env.infoResp with
  | .error k => .error (k, st)
  | .ok info =>
    afterInfo env
      (match info with
       | some c => { st with channels := st.channels ++ [c] }
       | none => st)

/-- The channel loop over the configured channel list. -/
def runChannels : List (Str × ChannelEnv) → Accum →
    Except (ExitKind × Accum) Accum
  | [], st => .ok st
  | (cid, env) :: rest, st =>
    match runChannel cid env st with
    | .error e => .error e
    | .ok st' => runChannels rest st'

/-- Outcome of a whole run: either the save step ran (three
`save_to_csv` results, for channels.csv, videos.csv and comments.csv), or
the process terminated first, with the accumulated records still in
memory but never persisted. -/
inductive RunResult where
  | saved (channelsCsv videosCsv commentsCsv : Option CsvFile × Bool)
  | exited (k : ExitKind) (mem : Accum)
  deriving DecidableEq

/-- `main`: iterate the configured channels, then — only if no call
terminated the process — save the three accumulators (lines 317-319). -/
def main (cfg : List (Str × ChannelEnv)) : RunResult :=
  match runChannels cfg initAccum with
  | .error (k, m) => .exited k m
  | .ok st =>
    .saved (save_to_csv (st.channels.map channelRow))
      (save_to_csv (st.videos.map videoRow))
      (save_to_csv (st.comments.map commentRow))

/-- The in-memory accumulated state a run ends with, whether it saved or
terminated early. -/
def finalAccum (cfg : List (Str × ChannelEnv)) : Accum :=
  match runChannels cfg initAccum with
  | .error (_, m) => m
  | .ok st => st

/-- The video ids carried by the successful responses of a
`videos.list` outcome trace (the ids the API itself supplied). -/
def detailIds (resps : List (ExecOutcome (Option (List VideoItem)))) : List Str :=
  (resps.map (fun r =>
    match safe_execute r with
    | .ok (some items) => items.map (fun v => v.id)
    | _ => [])).flatten

/-- All video ids carried by successful `videos.list` batch responses of
one channel's trace. -/
def envDetailIds (env : ChannelEnv) : List Str :=
  detailIds env.detailBatches

/-- All API-supplied video ids of a whole run. -/
def allDetailIds (cfg : List (Str × ChannelEnv)) : List Str :=
  (cfg.map (fun ce => envDetailIds ce.2)).flatten

/-- The ids the Video Page Walker produces for one channel (empty if the
walker terminated the process). -/
def walkerIds (env : ChannelEnv) : List Str :=
  match get_channel_videos env.uploadsResp env.pages 100 with
  | .ok l => l
  | .error _ => []

/-- All walker-produced video ids of a whole run. -/
def allWalkerIds (cfg : List (Str × ChannelEnv)) : List Str :=
  (cfg.map (fun ce => walkerIds ce.2)).flatten

/-! ## Helper lemmas -/

theorem strContains_iff {hay needle : Str} :
    strContains hay needle = true ↔ needle <:+: hay := by
  simp [strContains]

theorem toNat_ofNat_valid {n : Nat} (h : n.isValidChar) :
    (Char.ofNat n).toNat = n := by
  unfold Char.ofNat
  rw [dif_pos h]
  rfl

/-- Only `'&'` itself case-folds to `'&'`: ASCII lower-casing moves the
code points 65-90 into 97-122, and 38 is outside both ranges. -/
theorem toLower_eq_amp {c : Char} : c.toLower = '&' ↔ c = '&' := by
  constructor
  · intro h
    simp only [Char.toLower] at h
    split at h
    · exfalso
      rename_i hc
      have hv : (c.toNat + 32).isValidChar := Or.inl (by omega)
      have h2 := congrArg Char.toNat h
      rw [toNat_ofNat_valid hv] at h2
      have h3 : ('&').toNat = 38 := by decide
      rw [h3] at h2
      omega
    · exact h
  · intro h
    subst h
    decide

theorem single_infix_iff_mem {c : Char} {l : Str} : [c] <:+: l ↔ c ∈ l := by
  constructor
  · intro h
    exact List.singleton_sublist.1 h.sublist
  · intro h
    obtain ⟨s, t, rfl⟩ := List.append_of_mem h
    exact ⟨s, t, by simp⟩

/-- `'&' in title` and `'&' in title.lower()` agree: the lower-casing of
a string contains `'&'` exactly where the string itself does. -/
theorem amp_lower (s : Str) :
    strContains (lowerStr s) (str "&") = strContains s (str "&") := by
  have hs : str "&" = ['&'] := rfl
  rw [hs]
  simp only [strContains]
  apply decide_eq_decide.mpr
  rw [single_infix_iff_mem, single_infix_iff_mem, lowerStr, List.mem_map]
  constructor
  · rintro ⟨a, ha, hl⟩
    exact (toLower_eq_amp.1 hl) ▸ ha
  · intro h
    exact ⟨'&', h, by decide⟩

/-! ## Claim C2: content_type priority classification -/

/-- C2: for every video title, `content_type` equals the first matching
rule of the fixed priority table (music_video, live, acoustic,
lyric_video, vlog, other) applied to the lower-cased title; in
particular, a title whose lower-casing contains both "live" and
"official video" is classified music_video, because the first matching
rule wins. -/
theorem c2_content_type_priority (title : Str) :
    content_type_of title = contentTypeSpec title ∧
    (strContains (lowerStr title) (str "live") = true →
      strContains (lowerStr title) (str "official video") = true →
      content_type_of title = str "music_video") := by
  constructor
  · simp only [content_type_of, contentTypeSpec, firstRule, contentRules,
      List.any_cons, List.any_nil, Bool.or_false]
  · intro _ h2
    simp [content_type_of, h2]

/-- C2 witness: a concrete title containing both "live" and
"official video" classifies as music_video, and agrees with the
spec-side rule table. -/
theorem c2_content_type_priority_witness :
    content_type_of (str "Song (Live) [Official Video]") = str "music_video" :=
  (c2_content_type_priority (str "Song (Live) [Official Video]")).2
    (by decide) (by decide)

/-! ## Claim C8: has_collab trigger substrings -/

/-- C8: for every video title, `has_collab` is true exactly when the
lower-cased title contains one of "feat", "ft.", "featuring", "mit",
"&", "x" (the source checks `'&'` against the raw title, which is
equivalent); in particular any title containing "feat." sets it, and a
title matching no trigger does not. -/
theorem c8_has_collab_iff (title : Str) :
    has_collab_of title = hasCollabSpec title ∧
    (strContains title (str "feat.") = true → has_collab_of title = true) ∧
    (hasCollabSpec title = false → has_collab_of title = false) := by
  have h1 : has_collab_of title = hasCollabSpec title := by
    simp only [has_collab_of, hasCollabSpec, collabTriggers,
      List.any_cons, List.any_nil, Bool.or_false, Bool.or_assoc, amp_lower]
  refine ⟨h1, ?_, ?_⟩
  · intro h
    have hfd : str "feat" <:+: str "feat." := by decide
    have ht : str "feat" <:+: title := hfd.trans (strContains_iff.1 h)
    have hm := List.IsInfix.map Char.toLower ht
    have hfl : (str "feat").map Char.toLower = str "feat" := by decide
    rw [hfl] at hm
    have hc : strContains (lowerStr title) (str "feat") = true :=
      strContains_iff.2 hm
    simp [has_collab_of, hc]
  · intro h
    rw [h1, h]

/-- C8 witness: "Song (feat. Someone)" triggers `has_collab`; "Prose"
matches no trigger and does not. -/
theorem c8_has_collab_iff_witness :
    has_collab_of (str "Song (feat. Someone)") = true ∧
    has_collab_of (str "Prose") = false :=
  ⟨(c8_has_collab_iff (str "Song (feat. Someone)")).2.1 (by decide),
   (c8_has_collab_iff (str "Prose")).2.2 (by decide)⟩

/-! ## Claim C6: Channel Resolver failure handling -/

/-- C6 counterexample: on a response whose `'items'` key holds an empty
list, `get_channel_info` does not return `None` — `response['items'][0]`
raises `IndexError`, killing the process. -/
theorem c6_counterexample :
    get_channel_info (str "UC1") (.success (some [])) ≠ .ok none ∧
    get_channel_info (str "UC1") (.success (some [])) = .error .crash := by
  refine ⟨?_, rfl⟩
  intro h
  simp [get_channel_info, safe_execute] at h

/-- C6 (amended): the Channel Resolver returns `None` exactly when the
Adapter reports a soft failure or the response lacks the `'items'` key;
a present `'items'` key with an empty list instead raises `IndexError`
(and a fatal Adapter outcome terminates the process). -/
theorem c6_resolver_none (channel_id : Str)
    (resp : ExecOutcome (Option (List ChannelItem))) :
    (get_channel_info channel_id resp = .ok none ↔
      safe_execute resp = .soft ∨ safe_execute resp = .ok none) ∧
    get_channel_info channel_id (.success (some [])) = .error .crash := by
  refine ⟨?_, rfl⟩
  unfold get_channel_info
  cases h : safe_execute resp with
  | fatal => simp
  | soft => simp
  | ok a =>
    match a with
    | none => simp
    | some [] => simp
    | some (c :: cs) => simp

/-- C6 witness: a soft transport failure makes the resolver return
`None`. -/
theorem c6_resolver_none_witness :
    get_channel_info (str "UC1") (.pyError (α := Option (List ChannelItem))) = .ok none :=
  ((c6_resolver_none (str "UC1") .pyError).1).2 (Or.inl rfl)

/-! ## Claim C7: Tabular Writer -/

/-- C7: a non-empty record sequence yields a file whose header is the
first record's field names in order and whose rows are the records in
sequence order (one row each); an empty sequence writes no file and
raises the warning flag instead. -/
theorem c7_tabular_writer (data : List Row) :
    (data ≠ [] →
      ∃ f, save_to_csv data = (some f, false) ∧
        f.header = data.headI.map Prod.fst ∧
        f.rows.length = data.length ∧
        f.rows = data.map (fun r => f.header.map (fun k => ((r.lookup k).getD [])))) ∧
    (data = [] → save_to_csv data = (none, true)) := by
  cases data with
  | nil =>
    exact ⟨fun h => absurd rfl h, fun _ => rfl⟩
  | cons first rest =>
    refine ⟨fun _ => ⟨_, rfl, rfl, by simp [save_to_csv], rfl⟩, fun h => by cases h⟩

/-- C7 witness: a two-record input produces a two-row file with the first
record's keys as header; the empty input writes nothing and warns. -/
theorem c7_tabular_writer_witness :
    (∃ f, save_to_csv [[(str "k", str "v1")], [(str "k", str "v2")]] = (some f, false) ∧
      f.header = [str "k"] ∧
      f.rows.length = 2 ∧
      f.rows = [[str "v1"], [str "v2"]]) ∧
    save_to_csv [] = (none, true) := by
  have h1 := (c7_tabular_writer [[(str "k", str "v1")], [(str "k", str "v2")]]).1 (by decide)
  have h2 := (c7_tabular_writer []).2 rfl
  obtain ⟨f, hf, hh, hl, hr⟩ := h1
  refine ⟨⟨f, hf, ?_, ?_, ?_⟩, h2⟩
  · rw [hh]; rfl
  · rw [hl]; rfl
  · rw [hr, hh]; rfl

/-! ## Claim C5: Comment Page Walker soft stop -/

/-- C5: a soft Adapter outcome (comments disabled or unavailable) makes
the Comment Page Walker stop at once and return the records accumulated
so far as a normal value — the empty sequence when the first page fails —
never an error. -/
theorem c5_comments_soft_stop (video_id : Str) (cap : Nat)
    (p : ExecOutcome CommentPage) (rest : List (ExecOutcome CommentPage)) :
    (∀ acc, safe_execute p = .soft →
      walkComments video_id cap (p :: rest) acc = .ok acc) ∧
    (safe_execute p = .soft →
      get_video_comments video_id cap (p :: rest) = .ok []) := by
  have key : ∀ acc, safe_execute p = .soft →
      walkComments video_id cap (p :: rest) acc = .ok acc := by
    intro acc h
    unfold walkComments
    split
    · rfl
    · rw [h]
  exact ⟨key, fun h => key [] h⟩

/-- C5 witness: a first-page `commentsDisabled` error yields the empty
sequence as a normal return. -/
theorem c5_comments_soft_stop_witness :
    get_video_comments (str "vid1") 500 [.httpError (str "commentsDisabled")] = .ok [] :=
  (c5_comments_soft_stop (str "vid1") 500 (.httpError (str "commentsDisabled")) []).2
    (by decide)

/-! ## Claim C3: Video Page Walker cap and stop condition -/

/-- The pagination loop never accumulates past the cap, provided every
page consumed honours its requested `min(100, remaining)` size. -/
theorem walkPages_length_le (cap : Nat) :
    ∀ (pages : List (ExecOutcome (Option PlaylistPage))) (acc : List Str),
      acc.length ≤ cap → pagesHonest cap pages acc.length = true →
      ∀ l, walkPages cap pages acc = .ok l → l.length ≤ cap := by
  intro pages
  induction pages with
  | nil =>
    intro acc hle _ l hw
    unfold walkPages at hw
    injection hw with h
    exact h ▸ hle
  | cons p rest ih =>
    intro acc hle hh l hw
    by_cases hcap : cap ≤ acc.length
    · unfold walkPages at hw
      rw [if_pos hcap] at hw
      injection hw with h
      exact h ▸ hle
    · simp only [walkPages, if_neg hcap] at hw
      simp only [pagesHonest, if_neg hcap] at hh
      cases hse : safe_execute p with
      | fatal => rw [hse] at hw; cases hw
      | soft =>
        rw [hse] at hw
        injection hw with h
        exact h ▸ hle
      | ok a =>
        match a with
        | none =>
          rw [hse] at hw
          injection hw with h
          exact h ▸ hle
        | some pg =>
          simp only [hse] at hw
          rw [hse] at hh
          simp only [Bool.and_eq_true, Bool.or_eq_true, decide_eq_true_eq] at hh
          have hmin : min 100 (cap - acc.length) ≤ cap - acc.length :=
            Nat.min_le_right _ _
          have hlen : (acc ++ pg.videoIds).length ≤ cap := by
            rw [List.length_append]
            omega
          cases htok : tokenFalsy pg.nextPageToken with
          | true =>
            simp only [htok, if_true] at hw
            injection hw with h
            exact h ▸ hlen
          | false =>
            simp only [htok, Bool.false_eq_true, if_false] at hw
            rcases hh.2 with htok' | hrest
            · rw [htok] at htok'; cases htok'
            · refine ih (acc ++ pg.videoIds) hlen ?_ l hw
              rw [List.length_append]
              exact hrest

/-- C3: (1) for every channel lookup, cap and honest page sequence, the
Video Page Walker returns at most `max_results` ids; (2) the loop stops
without fetching once the accumulated count reaches the cap; (3) a page
whose continuation cursor is absent (or empty, which the source's
truthiness test treats the same) is the last one consumed; (4) a page
carrying a cursor, with the cap not yet reached, continues the walk. -/
theorem c3_walker_cap_and_stop :
    (∀ uploadsResp pages cap l,
      pagesHonest cap pages 0 = true →
      get_channel_videos uploadsResp pages cap = .ok l →
      l.length ≤ cap) ∧
    (∀ cap p rest (acc : List Str), cap ≤ acc.length →
      walkPages cap (p :: rest) acc = .ok acc) ∧
    (∀ cap (pg : PlaylistPage) p rest (acc : List Str),
      safe_execute p = .ok (some pg) →
      acc.length < cap →
      tokenFalsy pg.nextPageToken = true →
      walkPages cap (p :: rest) acc = .ok (acc ++ pg.videoIds)) ∧
    (∀ cap (pg : PlaylistPage) p rest (acc : List Str),
      safe_execute p = .ok (some pg) →
      acc.length < cap →
      tokenFalsy pg.nextPageToken = false →
      walkPages cap (p :: rest) acc = walkPages cap rest (acc ++ pg.videoIds)) := by
  refine ⟨?_, ?_, ?_, ?_⟩
  · intro uploadsResp pages cap l hh hw
    unfold get_channel_videos at hw
    cases hu : safe_execute uploadsResp with
    | fatal => rw [hu] at hw; cases hw
    | soft =>
      rw [hu] at hw
      injection hw with h
      simp [← h]
    | ok a =>
      match a with
      | none =>
        rw [hu] at hw
        injection hw with h
        simp [← h]
      | some [] => rw [hu] at hw; cases hw
      | some (pl :: pls) =>
        rw [hu] at hw
        exact walkPages_length_le cap pages [] (Nat.zero_le cap) hh l hw
  · intro cap p rest acc hcap
    unfold walkPages
    rw [if_pos hcap]
  · intro cap pg p rest acc hse hcap htok
    unfold walkPages
    rw [if_neg (Nat.not_le.mpr hcap), hse]
    dsimp only
    rw [htok]
    simp
  · intro cap pg p rest acc hse hcap htok
    unfold walkPages
    rw [if_neg (Nat.not_le.mpr hcap), hse]
    dsimp only
    rw [htok]
    simp
    rw [walkPages.eq_def]

/-- C3 witness: concrete instances of all four parts — a one-page honest
walk capped at 2; the cap-reached stop; the cursorless stop; the
cursor-continues step. -/
theorem c3_walker_cap_and_stop_witness :
    ([str "a", str "b"].length ≤ 2) ∧
    (walkPages 2 [.success (some ⟨[str "a"], none⟩)] [str "x", str "y"] =
      .ok [str "x", str "y"]) ∧
    (walkPages 2 [.success (some ⟨[str "a"], none⟩)] [] = .ok [str "a"]) ∧
    (walkPages 2 [.success (some ⟨[str "a"], some (str "T")⟩)] [] =
      walkPages 2 [] [str "a"]) := by
  refine ⟨?_, ?_, ?_, ?_⟩
  · exact c3_walker_cap_and_stop.1 (.success (some [str "PL"]))
      [.success (some ⟨[str "a", str "b"], none⟩)] 2 [str "a", str "b"]
      (by decide) rfl
  · exact c3_walker_cap_and_stop.2.1 2 (.success (some ⟨[str "a"], none⟩))
      [] [str "x", str "y"] (by decide)
  · exact c3_walker_cap_and_stop.2.2.1 2 ⟨[str "a"], none⟩
      (.success (some ⟨[str "a"], none⟩)) [] [] rfl (by decide) (by decide)
  · exact c3_walker_cap_and_stop.2.2.2 2 ⟨[str "a"], some (str "T")⟩
      (.success (some ⟨[str "a"], some (str "T")⟩)) [] [] rfl (by decide)
      (by decide)

/-! ## Claim C4: Video Detail Fetcher batching -/

theorem batchesOf_cons (l : List Str) (h : l ≠ []) :
    batchesOf l = l.take 50 :: batchesOf (l.drop 50) := by
  match l with
  | [] => exact absurd rfl h
  | i :: is => simp [batchesOf]

theorem get_video_details_cons (r : ExecOutcome (Option (List VideoItem)))
    (rs : List (ExecOutcome (Option (List VideoItem))))
    (ids : List Str) (hne : ids ≠ []) (acc : List VideoRecord) :
    get_video_details (r :: rs) ids acc =
      match safe_execute r with
      | .fatal => .error .fatalAuth
      | .soft => get_video_details rs (ids.drop 50) acc
      | .ok none => get_video_details rs (ids.drop 50) acc
      | .ok (some items) =>
        get_video_details rs (ids.drop 50) (acc ++ items.map mkVideoRecord) := by
  match ids with
  | [] => exact absurd rfl hne
  | i :: is => rfl

/-- A 120-id input: its batches are exactly 2 full 50-id slices and one
20-id slice. -/
def c4ids : List Str := List.replicate 120 (str "v")

/-- A minimal `videos.list` item. -/
def c4item (i : Str) : VideoItem :=
  { id := i, title := [], channelId := [], channelTitle := [],
    description := none, publishedAt := [], duration := [],
    viewCount := none, likeCount := none, commentCount := none,
    tags := none, categoryId := none, thumbnailUrl := [] }

def c4items0 : List VideoItem := List.replicate 50 (c4item (str "a"))

def c4items2 : List VideoItem := List.replicate 20 (c4item (str "b"))

def c4r0 : ExecOutcome (Option (List VideoItem)) := .success (some c4items0)

def c4r2 : ExecOutcome (Option (List VideoItem)) := .success (some c4items2)

/-- C4 counterexample: 120 identifiers are split into batches of 50, 50
and 20; when the second batch's call fails and the API returns one item
per requested id in the surviving batches, the output holds the 50 + 20
= 70 records of batches 1 and 3 — not the 80 the claim states. -/
theorem c4_counterexample :
    (get_video_details [c4r0, .pyError, c4r2] c4ids []).map List.length =
      .ok 70 ∧ (70 : Nat) ≠ 80 :=
  ⟨rfl, by decide⟩

/-- C4 (amended): 120 identifiers are partitioned into consecutive
batches of sizes 50, 50 and 20; if the second batch's call fails softly,
the output is exactly the records derived from batches 1 and 3 — 70
records when the API returns one item per requested id — delivered as a
normal return value, with no exception propagated to the caller. -/
theorem c4_batching (ids : List Str)
    (r0 r1 r2 : ExecOutcome (Option (List VideoItem)))
    (items0 items2 : List VideoItem)
    (h : ids.length = 120)
    (h0 : safe_execute r0 = .ok (some items0))
    (h1 : safe_execute r1 = .soft)
    (h2 : safe_execute r2 = .ok (some items2)) :
    (batchesOf ids).map List.length = [50, 50, 20] ∧
    get_video_details [r0, r1, r2] ids [] =
      .ok (items0.map mkVideoRecord ++ items2.map mkVideoRecord) ∧
    (items0.length = 50 → items2.length = 20 →
      (items0.map mkVideoRecord ++ items2.map mkVideoRecord).length = 70) := by
  have hne : ids ≠ [] := by intro he; subst he; simp at h
  have hd1 : (ids.drop 50).length = 70 := by rw [List.length_drop, h]
  have hne1 : ids.drop 50 ≠ [] := by intro he; rw [he] at hd1; simp at hd1
  have hd2 : ((ids.drop 50).drop 50).length = 20 := by
    rw [List.length_drop, hd1]
  have hne2 : (ids.drop 50).drop 50 ≠ [] := by intro he; rw [he] at hd2; simp at hd2
  have hd3 : (((ids.drop 50).drop 50)).drop 50 = [] := by
    apply List.eq_nil_of_length_eq_zero
    rw [List.length_drop, hd2]
  refine ⟨?_, ?_, ?_⟩
  · rw [batchesOf_cons ids hne, batchesOf_cons _ hne1, batchesOf_cons _ hne2,
      hd3]
    simp [batchesOf, List.length_take, h, hd1, hd2]
  · rw [get_video_details_cons r0 [r1, r2] ids hne]
    simp only [h0]
    rw [get_video_details_cons r1 [r2] _ hne1]
    simp only [h1]
    rw [get_video_details_cons r2 [] _ hne2]
    simp only [h2]
    rw [hd3]
    simp [get_video_details]
  · intro h50 h20
    simp [List.length_append, h50, h20]

/-- C4 witness: the amended claim at the concrete 120-id input with a
soft failure on the second batch. -/
theorem c4_batching_witness :
    (batchesOf c4ids).map List.length = [50, 50, 20] ∧
    get_video_details [c4r0, .pyError, c4r2] c4ids [] =
      .ok (c4items0.map mkVideoRecord ++ c4items2.map mkVideoRecord) ∧
    (c4items0.map mkVideoRecord ++ c4items2.map mkVideoRecord).length = 70 := by
  have h := c4_batching c4ids c4r0 .pyError c4r2 c4items0 c4items2
    (by decide) rfl rfl rfl
  exact ⟨h.1, h.2.1, h.2.2 (by decide) (by decide)⟩

/-! ## Orchestrator-level lemmas (for C1, C9, C10) -/

/-- The in-memory state a stage result carries: the new state on success,
the state at the moment of death on termination. -/
def stateOf : Except (ExitKind × Accum) Accum → Accum
  | .ok st => st
  | .error (_, m) => m

theorem detailIds_cons (r : ExecOutcome (Option (List VideoItem)))
    (rs : List (ExecOutcome (Option (List VideoItem)))) :
    detailIds (r :: rs) =
      (match safe_execute r with
       | .ok (some items) => items.map (fun v => v.id)
       | _ => []) ++ detailIds rs := by
  simp [detailIds]

/-- The record list a successful detail fetch returns extends the
accumulator by records whose ids form a sublist of the ids the API
supplied in the trace's successful responses. -/
theorem get_video_details_ids :
    ∀ (resps : List (ExecOutcome (Option (List VideoItem))))
      (ids : List Str) (acc res : List VideoRecord),
      get_video_details resps ids acc = .ok res →
      ∃ new, res = acc ++ new ∧
        List.Sublist (new.map VideoRecord.video_id) (detailIds resps) := by
  intro resps
  induction resps with
  | nil =>
    intro ids acc res h
    match ids with
    | [] =>
      injection h with h
      exact ⟨[], by simp [h], by simp⟩
    | i :: is =>
      injection h with h
      exact ⟨[], by simp [h], by simp⟩
  | cons r rs ih =>
    intro ids acc res h
    match ids with
    | [] =>
      injection h with h
      exact ⟨[], by simp [h], by simp⟩
    | i :: is =>
      rw [get_video_details_cons r rs (i :: is) (by simp) acc] at h
      rw [detailIds_cons r rs]
      cases hse : safe_execute r with
      | fatal =>
        simp only [hse] at h
        exact Except.noConfusion h
      | soft =>
        simp only [hse] at h
        obtain ⟨new, hres, hsub⟩ := ih _ _ _ h
        exact ⟨new, hres, by simpa using hsub⟩
      | ok a =>
        match a with
        | none =>
          simp only [hse] at h
          obtain ⟨new, hres, hsub⟩ := ih _ _ _ h
          exact ⟨new, hres, by simpa using hsub⟩
        | some items =>
          simp only [hse] at h
          obtain ⟨new, hres, hsub⟩ := ih _ _ _ h
          refine ⟨items.map mkVideoRecord ++ new, ?_, ?_⟩
          · rw [hres, List.append_assoc]
          · simp only [List.map_append, List.map_map]
            have hm : (items.map (VideoRecord.video_id ∘ mkVideoRecord)) =
                items.map (fun v => v.id) := by
              simp [Function.comp, mkVideoRecord]
            rw [hm]
            exact List.Sublist.append (List.Sublist.refl _) hsub

/-- Every record a successful comment walk returns is either from the
accumulator or keyed by the requested video id. -/
theorem walkComments_mem (vid : Str) (cap : Nat) :
    ∀ (pages : List (ExecOutcome CommentPage)) (acc res : List CommentRecord),
      walkComments vid cap pages acc = .ok res →
      ∀ c ∈ res, c ∈ acc ∨ c.video_id = vid := by
  intro pages
  induction pages with
  | nil =>
    intro acc res h c hc
    injection h with h
    exact Or.inl (h ▸ hc)
  | cons p rest ih =>
    intro acc res h c hc
    by_cases hcap : cap ≤ acc.length
    · unfold walkComments at h
      rw [if_pos hcap] at h
      injection h with h
      exact Or.inl (h ▸ hc)
    · simp only [walkComments, if_neg hcap] at h
      cases hse : safe_execute p with
      | fatal =>
        simp only [hse] at h
        exact Except.noConfusion h
      | soft =>
        simp only [hse] at h
        injection h with h
        exact Or.inl (h ▸ hc)
      | ok pg =>
        simp only [hse] at h
        cases hit : pg.items? with
        | none =>
          simp only [hit] at h
          injection h with h
          exact Or.inl (h ▸ hc)
        | some items =>
          simp only [hit] at h
          have memCase :
              c ∈ acc ++ items.map (mkCommentRecord vid) →
              c ∈ acc ∨ c.video_id = vid := by
            intro hm
            rcases List.mem_append.1 hm with hm | hm
            · exact Or.inl hm
            · obtain ⟨t, _, rfl⟩ := List.mem_map.1 hm
              exact Or.inr rfl
          cases htok : tokenFalsy pg.nextPageToken with
          | true =>
            simp only [htok, if_true] at h
            injection h with h
            exact memCase (h ▸ hc)
          | false =>
            simp only [htok, Bool.false_eq_true, if_false] at h
            rcases ih _ _ h c hc with hm | hm
            · exact memCase hm
            · exact Or.inr hm

/-- The per-video comment loop leaves channels and videos untouched and
appends only comment records keyed by ids from its input list. -/
theorem fetchCommentsLoop_shape (env : ChannelEnv) :
    ∀ (vids : List Str) (st : Accum) (res : Except (ExitKind × Accum) Accum),
      fetchCommentsLoop env vids st = res →
      (stateOf res).channels = st.channels ∧
      (stateOf res).videos = st.videos ∧
      ∃ t, (stateOf res).comments = st.comments ++ t ∧
        ∀ c ∈ t, c.video_id ∈ vids := by
  intro vids
  induction vids with
  | nil =>
    intro st res h
    simp only [fetchCommentsLoop] at h
    subst h
    exact ⟨rfl, rfl, [], by simp [stateOf], by simp⟩
  | cons v rest ih =>
    intro st res h
    simp only [fetchCommentsLoop] at h
    cases hg : get_video_comments v 500 (env.commentPages v) with
    | error k =>
      rw [hg] at h
      subst h
      exact ⟨rfl, rfl, [], by simp [stateOf], by simp⟩
    | ok cs =>
      simp only [hg] at h
      obtain ⟨hch, hvd, t, hcm, hmem⟩ := ih _ _ h
      refine ⟨hch, hvd, cs ++ t, ?_, ?_⟩
      · rw [hcm]
        simp [List.append_assoc]
      · intro c hc
        rcases List.mem_append.1 hc with hc | hc
        · rcases walkComments_mem v 500 (env.commentPages v) [] cs hg c hc with
            hf | hf
          · cases hf
          · exact hf ▸ List.mem_cons_self v rest
        · exact List.mem_cons_of_mem v (hmem c hc)

/-- The post-statistics stages leave the channel accumulator untouched,
append only video records whose ids the API supplied, and append only
comment records keyed by walker ids. -/
theorem afterInfo_shape (env : ChannelEnv) (st1 : Accum)
    (res : Except (ExitKind × Accum) Accum)
    (h : afterInfo env st1 = res) :
    (stateOf res).channels = st1.channels ∧
    (∃ vs, (stateOf res).videos = st1.videos ++ vs ∧
      List.Sublist (vs.map VideoRecord.video_id) (envDetailIds env)) ∧
    (∃ cms, (stateOf res).comments = st1.comments ++ cms ∧
      ∀ c ∈ cms, c.video_id ∈ walkerIds env) := by
  unfold afterInfo at h
  cases hw : get_channel_videos env.uploadsResp env.pages 100 with
  | error k =>
    simp only [hw] at h
    subst h
    exact ⟨by simp [stateOf], ⟨[], by simp [stateOf], List.nil_sublist _⟩,
      ⟨[], by simp [stateOf], by simp⟩⟩
  | ok video_ids =>
    simp only [hw] at h
    have hwk : walkerIds env = video_ids := by
      unfold walkerIds
      rw [hw]
    cases hd : get_video_details env.detailBatches video_ids [] with
    | error k =>
      simp only [hd] at h
      subst h
      exact ⟨by simp [stateOf], ⟨[], by simp [stateOf], List.nil_sublist _⟩,
        ⟨[], by simp [stateOf], by simp⟩⟩
    | ok videos =>
      simp only [hd] at h
      obtain ⟨new, hnew, hsub⟩ := get_video_details_ids _ _ _ _ hd
      obtain ⟨hch, hvd, t, hcm, hmem⟩ := fetchCommentsLoop_shape env video_ids _ _ h
      refine ⟨hch, ⟨videos, hvd, ?_⟩, ⟨t, hcm, ?_⟩⟩
      · rw [hnew]
        simpa [envDetailIds] using hsub
      · intro c hc
        rw [hwk]
        exact hmem c hc

/-- One channel iteration appends to each accumulator, the appended
video-record ids are API-supplied, and the appended comment records are
keyed by walker ids — whether the iteration completes or the process
dies mid-way. -/
theorem runChannel_shape (cid : Str) (env : ChannelEnv) (st : Accum)
    (res : Except (ExitKind × Accum) Accum)
    (h : runChannel cid env st = res) :
    (∃ a, (stateOf res).channels = st.channels ++ a) ∧
    (∃ vs, (stateOf res).videos = st.videos ++ vs ∧
      List.Sublist (vs.map VideoRecord.video_id) (envDetailIds env)) ∧
    (∃ cms, (stateOf res).comments = st.comments ++ cms ∧
      ∀ c ∈ cms, c.video_id ∈ walkerIds env) := by
  unfold runChannel at h
  cases hinfo : get_channel_info cid env.infoResp with
  | error k =>
    simp only [hinfo] at h
    subst h
    exact ⟨⟨[], by simp [stateOf]⟩, ⟨[], by simp [stateOf], List.nil_sublist _⟩,
      ⟨[], by simp [stateOf], by simp⟩⟩
  | ok info =>
    simp only [hinfo] at h
    cases info with
    | none =>
      obtain ⟨hch, hvs, hcs⟩ := afterInfo_shape env st res h
      exact ⟨⟨[], by simp [hch]⟩, hvs, hcs⟩
    | some c =>
      obtain ⟨hch, ⟨vs, hv, hs⟩, ⟨cms, hc, hm⟩⟩ :=
        afterInfo_shape env { st with channels := st.channels ++ [c] } res h
      exact ⟨⟨[c], by simpa using hch⟩, ⟨vs, by simpa using hv, hs⟩,
        ⟨cms, by simpa using hc, hm⟩⟩

/-- A whole run appends; video-record ids come from successful detail
batches; comment records are keyed by walker ids. -/
theorem runChannels_shape :
    ∀ (cfg : List (Str × ChannelEnv)) (st : Accum),
      (∃ a, (stateOf (runChannels cfg st)).channels = st.channels ++ a) ∧
      (∃ vs, (stateOf (runChannels cfg st)).videos = st.videos ++ vs ∧
        List.Sublist (vs.map VideoRecord.video_id) (allDetailIds cfg)) ∧
      (∃ cms, (stateOf (runChannels cfg st)).comments = st.comments ++ cms ∧
        ∀ c ∈ cms, c.video_id ∈ allWalkerIds cfg) := by
  intro cfg
  induction cfg with
  | nil =>
    intro st
    exact ⟨⟨[], by simp [runChannels, stateOf]⟩,
      ⟨[], by simp [runChannels, stateOf], by simp [allDetailIds]⟩,
      ⟨[], by simp [runChannels, stateOf], by simp⟩⟩
  | cons ce rest ih =>
    obtain ⟨cid, env⟩ := ce
    intro st
    have hdcons : allDetailIds ((cid, env) :: rest) =
        envDetailIds env ++ allDetailIds rest := by
      simp [allDetailIds]
    have hwcons : allWalkerIds ((cid, env) :: rest) =
        walkerIds env ++ allWalkerIds rest := by
      simp [allWalkerIds]
    cases hr : runChannel cid env st with
    | error e =>
      have hrc : runChannels ((cid, env) :: rest) st = .error e := by
        simp only [runChannels, hr]
      rw [hrc]
      obtain ⟨⟨a, hch⟩, ⟨vs, hv, hs⟩, ⟨cms, hc, hm⟩⟩ :=
        runChannel_shape cid env st _ hr
      refine ⟨⟨a, hch⟩, ⟨vs, hv, ?_⟩, ⟨cms, hc, ?_⟩⟩
      · rw [hdcons]
        exact hs.trans (List.sublist_append_left _ _)
      · intro c hc2
        rw [hwcons]
        exact List.mem_append_left _ (hm c hc2)
    | ok st' =>
      have hrc : runChannels ((cid, env) :: rest) st = runChannels rest st' := by
        simp only [runChannels, hr]
      rw [hrc]
      obtain ⟨⟨a1, hch1⟩, ⟨vs1, hv1, hs1⟩, ⟨cms1, hc1, hm1⟩⟩ :=
        runChannel_shape cid env st _ hr
      obtain ⟨⟨a2, hch2⟩, ⟨vs2, hv2, hs2⟩, ⟨cms2, hc2, hm2⟩⟩ := ih st'
      have hch1' : st'.channels = st.channels ++ a1 := hch1
      have hv1' : st'.videos = st.videos ++ vs1 := hv1
      have hc1' : st'.comments = st.comments ++ cms1 := hc1
      refine ⟨⟨a1 ++ a2, ?_⟩, ⟨vs1 ++ vs2, ?_, ?_⟩, ⟨cms1 ++ cms2, ?_, ?_⟩⟩
      · rw [hch2, hch1', List.append_assoc]
      · rw [hv2, hv1', List.append_assoc]
      · rw [hdcons, List.map_append]
        exact List.Sublist.append hs1 hs2
      · rw [hc2, hc1', List.append_assoc]
      · intro c hc3
        rw [hwcons]
        rcases List.mem_append.1 hc3 with hc3 | hc3
        · exact List.mem_append_left _ (hm1 c hc3)
        · exact List.mem_append_right _ (hm2 c hc3)

theorem finalAccum_eq (cfg : List (Str × ChannelEnv)) :
    finalAccum cfg = stateOf (runChannels cfg initAccum) := by
  unfold finalAccum stateOf
  cases runChannels cfg initAccum with
  | error e => obtain ⟨k, m⟩ := e; rfl
  | ok st => rfl

/-! ## Claim C1: fatal credential failure, no partial persistence -/

/-- C1: an error content containing "API key expired" (or,
case-insensitively, "api key") is classified fatal by the Adapter; and
in a two-channel run whose first channel completes and whose second
channel dies on that fatal classification, the whole run ends in the
`exited` state carrying the first channel's accumulated records — the
save step is never reached, so no CSV result exists. -/
theorem c1_fatal_no_save (cid1 cid2 : Str) (env1 env2 : ChannelEnv)
    (st1 m : Accum)
    (h1 : runChannel cid1 env1 initAccum = .ok st1)
    (h2 : runChannel cid2 env2 st1 = .error (.fatalAuth, m)) :
    (∀ (α : Type) (content : Str),
      (strContains content (str "API key expired") = true ∨
       strContains (lowerStr content) (str "api key") = true) →
      safe_execute (ExecOutcome.httpError (α := α) content) = .fatal) ∧
    main [(cid1, env1), (cid2, env2)] = .exited .fatalAuth m ∧
    (∃ a, m.channels = st1.channels ++ a) ∧
    (∃ a, m.videos = st1.videos ++ a) ∧
    (∃ a, m.comments = st1.comments ++ a) ∧
    (∀ f1 f2 f3, main [(cid1, env1), (cid2, env2)] ≠ .saved f1 f2 f3) := by
  have hrun : runChannels [(cid1, env1), (cid2, env2)] initAccum =
      .error (.fatalAuth, m) := by
    simp only [runChannels, h1, h2]
  have hmain : main [(cid1, env1), (cid2, env2)] = .exited .fatalAuth m := by
    unfold main
    rw [hrun]
  obtain ⟨⟨a1, hch⟩, ⟨vs, hv, _⟩, ⟨cms, hc, _⟩⟩ :=
    runChannel_shape cid2 env2 st1 _ h2
  refine ⟨?_, hmain, ⟨a1, hch⟩, ⟨vs, hv⟩, ⟨cms, hc⟩, ?_⟩
  · intro α content hcond
    rcases hcond with h | h <;> simp [safe_execute, h]
  · intro f1 f2 f3 hsave
    rw [hmain] at hsave
    cases hsave

/-- A channel item with full statistics, for concrete runs. -/
def chItemA : ChannelItem :=
  { title := str "Artist A", subscriberCount := some 10,
    viewCount := some 100, videoCount := some 1,
    country := some (str "DE"), customUrl := some (str "@a") }

/-- A channel whose every call succeeds: one video, no comments. -/
def env1ok : ChannelEnv :=
  { infoResp := .success (some [chItemA])
    uploadsResp := .success (some [str "PL1"])
    pages := [.success (some { videoIds := [str "v1"], nextPageToken := none })]
    detailBatches := [.success (some [c4item (str "v1")])]
    commentPages := fun _ => [] }

/-- A channel whose first call reports an expired credential. -/
def env2fatal : ChannelEnv :=
  { infoResp := .httpError (str "API key expired")
    uploadsResp := .pyError
    pages := []
    detailBatches := []
    commentPages := fun _ => [] }

/-- The state accumulated by `env1ok`'s channel. -/
def c1st : Accum :=
  { channels := [mkChannelRecord (str "UC_A") chItemA]
    videos := [mkVideoRecord (c4item (str "v1"))]
    comments := [] }

/-- C1 witness: a concrete two-channel run — the second channel's
credential failure exits with the first channel's channel record and
video record still in memory, and nothing saved. -/
theorem c1_fatal_no_save_witness :
    safe_execute (ExecOutcome.httpError (α := Unit) (str "error: bad API KEY")) =
      .fatal ∧
    main [(str "UC_A", env1ok), (str "UC_B", env2fatal)] =
      .exited .fatalAuth c1st ∧
    c1st.channels.length = 1 ∧ c1st.videos.length = 1 := by
  have h := c1_fatal_no_save (str "UC_A") (str "UC_B") env1ok env2fatal c1st c1st
    rfl rfl
  exact ⟨h.1 Unit (str "error: bad API KEY") (Or.inr (by decide)), h.2.1, rfl, rfl⟩

/-! ## Claim C9: video_id uniqueness -/

/-- A channel whose single detail batch returns the same video id twice. -/
def env9dup : ChannelEnv :=
  { infoResp := .pyError
    uploadsResp := .success (some [str "PL"])
    pages := [.success (some { videoIds := [str "v1"], nextPageToken := none })]
    detailBatches := [.success (some [c4item (str "v1"), c4item (str "v1")])]
    commentPages := fun _ => [] }

/-- A channel whose single detail batch returns two distinct ids. -/
def env9ok : ChannelEnv :=
  { infoResp := .pyError
    uploadsResp := .success (some [str "PL"])
    pages := [.success (some { videoIds := [str "v1", str "v2"], nextPageToken := none })]
    detailBatches := [.success (some [c4item (str "v1"), c4item (str "v2")])]
    commentPages := fun _ => [] }

/-- C9 counterexample: the pipeline never deduplicates — an API batch
response carrying the same video id twice produces two accumulated Video
Records with equal `video_id`, so uniqueness fails for this run. -/
theorem c9_counterexample :
    ¬ ((finalAccum [(str "UC1", env9dup)]).videos.map
        VideoRecord.video_id).Nodup := by
  decide

/-- C9 (amended): if the video items the API supplies across all
successful detail batches of the run carry pairwise-distinct ids, then
the `video_id` values of all accumulated Video Records are pairwise
distinct; the code itself performs no deduplication, so distinctness is
inherited from, not enforced on, the API data. -/
theorem c9_video_ids_nodup (cfg : List (Str × ChannelEnv))
    (h : (allDetailIds cfg).Nodup) :
    ((finalAccum cfg).videos.map VideoRecord.video_id).Nodup := by
  obtain ⟨_, ⟨vs, hv, hs⟩, _⟩ := runChannels_shape cfg initAccum
  rw [finalAccum_eq, hv]
  simp only [initAccum, List.nil_append]
  exact List.Nodup.sublist hs h

/-- C9 witness: a run whose batch responses carry distinct ids yields
distinct accumulated `video_id`s. -/
theorem c9_video_ids_nodup_witness :
    ((finalAccum [(str "UC1", env9ok)]).videos.map VideoRecord.video_id).Nodup :=
  c9_video_ids_nodup [(str "UC1", env9ok)] (by decide)

/-! ## Claim C10: comment-to-video foreign reference -/

/-- A top-level comment thread, for concrete runs. -/
def threadT : CommentThread :=
  { commentId := str "c1", authorDisplayName := str "u",
    textDisplay := str "hi", likeCount := 1, totalReplyCount := 0,
    publishedAt := str "2024-01-01", updatedAt := none }

/-- A channel whose details batch fails while comment collection for the
same video id succeeds. -/
def env10 : ChannelEnv :=
  { infoResp := .pyError
    uploadsResp := .success (some [str "PL"])
    pages := [.success (some { videoIds := [str "v1"], nextPageToken := none })]
    detailBatches := [.pyError]
    commentPages := fun _ =>
      [.success { items? := some [threadT], nextPageToken := none }] }

/-- C10 counterexample: when the details batch for a video fails but its
comment collection proceeds (comments are fetched per walker id, not per
Video Record), the run accumulates a Comment Record whose `video_id`
matches no accumulated Video Record. -/
theorem c10_counterexample :
    (finalAccum [(str "UC1", env10)]).comments ≠ [] ∧
    ¬ (∀ c ∈ (finalAccum [(str "UC1", env10)]).comments,
        ∃ v ∈ (finalAccum [(str "UC1", env10)]).videos,
          v.video_id = c.video_id) := by
  constructor
  · decide
  · decide

/-- C10 (amended): every accumulated Comment Record's `video_id` is one
of the video identifiers the Video Page Walker produced for some channel
of the same run (the id the comment fetch was issued for); it refers to
an accumulated Video Record only when the detail batch covering that id
succeeded, which a failed batch does not guarantee. -/
theorem c10_comment_video_ids (cfg : List (Str × ChannelEnv))
    (c : CommentRecord) (hc : c ∈ (finalAccum cfg).comments) :
    c.video_id ∈ allWalkerIds cfg := by
  obtain ⟨_, _, ⟨cms, hcm, hmem⟩⟩ := runChannels_shape cfg initAccum
  rw [finalAccum_eq, hcm] at hc
  simp only [initAccum, List.nil_append] at hc
  exact hmem c hc

/-- C10 witness: the comment collected in the failed-batch run is keyed
by the walker-produced id "v1". -/
theorem c10_comment_video_ids_witness :
    (mkCommentRecord (str "v1") threadT).video_id ∈
      allWalkerIds [(str "UC1", env10)] :=
  c10_comment_video_ids [(str "UC1", env10)]
    (mkCommentRecord (str "v1") threadT) (by decide)

end YT
